import Mathlib

/-!
Verification of the SimCtl device control plane against its specification.

The development shallowly embeds the state-manipulating kernels of the
JavaScript source as pure Lean functions:

* `src/lib/DeviceSession.js`  — the in-process session registry
  (`validate`, `compare`, `compareAndValidate`, `destroy`,
  `getSessionByToken`).
* `src/lib/BaseDevice.js`     — the on-disk lock file protocol
  (`readLock`, `writeLock`, `lock`), the session guard
  (`ifBootedAndAvailableDoWithSessionOrReject`), `isAvailable`, and the
  driver capability check (`deviceTypeIsValid`) together with the driver
  registration loop of `src/index.js`.
* `src/lib/iOS/index.js` and `src/lib/Android/index.js` — the single-flight
  discovery dispatch (`getSimulatorDeviceStatuses`, `listRunningDevices`),
  the boot dispatch of the emulator and simulator subclasses, the rotation
  updates, and the adb `install` / `uninstall` result handling.

JavaScript values are modelled explicitly where their dynamics matter: the
session store is an insertion-ordered association list whose keys include
the string key produced by a `null` token (modelled as `none`), truthiness
of looked-up values is tracked, and the non-boolean return value of
`deviceTypeIsValid` (either the literal `false` or a `missing` array) is a
dedicated inductive together with its JavaScript truthiness.

External effects (subprocess execution, the file system, process liveness)
enter as explicit parameters: an `ExecResult` for a completed subprocess, a
liveness predicate for pids, and the parsed lock file content.  Callback
plumbing is reduced to outcome values; an outcome constructor `noSettle`
marks the paths on which the source never invokes the completion callback,
so that neither the promise nor the callback ever observes a result.
-/

namespace SimCtl

/-! ## Session registry (src/lib/DeviceSession.js) -/

/-- A key of the module-level `sessions` object.  JavaScript object keys are
strings; `some t` is the md5 token string (tokens modelled as naturals) and
`none` is the string key produced by indexing with a `null` token. -/
abbrev JsKey := Option Nat

/-- The module-level `sessions` object: insertion-ordered key/value pairs.
The value component records JavaScript truthiness of the stored value
(`true` = a session object, `false` = the literal `null`). -/
abbrev SessionStore := List (JsKey × Bool)

/-- Property lookup on the `sessions` object. -/
def storeGet (st : SessionStore) (k : JsKey) : Option Bool :=
  (st.find? (fun kv => kv.fst == k)).map (fun kv => kv.snd)

/-- Property assignment `sessions[k] = v` (overwrite in place, else append). -/
def storeSet (st : SessionStore) (k : JsKey) (v : Bool) : SessionStore :=
  if (st.find? (fun kv => kv.fst == k)).isSome then
    st.map (fun kv => if kv.fst == k then (k, v) else kv)
  else
    st ++ [(k, v)]

/-- The statement `delete sessions[k]`. -/
def storeDelete (st : SessionStore) (k : JsKey) : SessionStore :=
  st.filter (fun kv => kv.fst != k)

/-- Truthiness of `sessions[k]`: the key is present and maps to a session
object rather than `null`. -/
def truthyAt (st : SessionStore) (k : JsKey) : Bool :=
  (storeGet st k).getD false

/-- The per-session closure state of `DeviceSession`: `sid` is the object
identity (used by `compare`, which tests `session === this`), `token` the
captured token variable (`none` once nulled by `destroy`), and `lastUsed`
and `timeout` the expiry bookkeeping. -/
structure DeviceSession where
  sid : Nat
  token : JsKey
  lastUsed : Nat
  timeout : Nat
deriving Repr, DecidableEq

/-- Construction of a `DeviceSession`: the freshly generated token is pushed
into the session store (`sessions[token] = self`). -/
def DeviceSession.register (s : DeviceSession) (st : SessionStore) : SessionStore :=
  storeSet st s.token true

/-- The method `destroy`: sets `token = null`, then executes
`sessions[token] = null` and `delete sessions[token]` with the already
nulled token, so both store operations address the `null` key. -/
def DeviceSession.destroy (s : DeviceSession) (st : SessionStore) :
    DeviceSession × SessionStore :=
  let s1 : DeviceSession := { s with token := none }
  let st1 := storeSet st none false
  let st2 := storeDelete st1 none
  (s1, st2)

/-- The method `validate`: computes the truthiness of
`(Date.now() - lastUsed < timeout) && token && sessions[token]`; on a truthy
result refreshes `lastUsed`, otherwise calls `destroy`.  The first component
is the truthiness of the returned value. -/
def DeviceSession.validate (s : DeviceSession) (st : SessionStore) (now : Nat) :
    Bool × DeviceSession × SessionStore :=
  let isValid := decide ((now : Int) - (s.lastUsed : Int) < (s.timeout : Int))
      && s.token.isSome && truthyAt st s.token
  if isValid then
    (true, { s with lastUsed := now }, st)
  else
    let d := DeviceSession.destroy s st
    (false, d.fst, d.snd)

/-- The method `compare`: object identity `session === this`. -/
def DeviceSession.compare (self other : DeviceSession) : Bool :=
  other.sid == self.sid

/-- The method `compareAndValidate`: `self.compare(session) && self.validate(done)`.
When `compare` fails, the conjunction short-circuits and `validate` — and with
it the completion callback — is never invoked; that path is `none`. -/
def DeviceSession.compareAndValidate (self other : DeviceSession)
    (st : SessionStore) (now : Nat) :
    Option (Bool × DeviceSession × SessionStore) :=
  if DeviceSession.compare self other then
    some (DeviceSession.validate self st now)
  else
    none

/-- The static `getSessionByToken`: `sessions[token] || null`.  The result is
the truthiness of the returned value — `true` exactly when a session object
(not `null`) is returned. -/
def getSessionByToken (st : SessionStore) (k : JsKey) : Bool :=
  truthyAt st k

/-- The spec-side notion used by the claims: the session is registered in the
session store under its (non-null) token. -/
def tokenRegistered (st : SessionStore) (s : DeviceSession) : Bool :=
  s.token.isSome && truthyAt st s.token

/-! ## Lock file protocol (src/lib/BaseDevice.js, readLock / writeLock / lock) -/

/-- Process environment of one lock client: its own pid and the OS snapshot
liveness check used through `utils.getProcessPathByPID` (`true` = a process
path was found for the pid). -/
structure LockEnv where
  selfPid : Nat
  alive : Nat → Bool

/-- State touched by the lock protocol: the parsed content
`<flag>.<pid>` of the `.lock` file (`none` = file absent) and the
in-process `localLock` short-circuit flag. -/
structure LockState where
  file : Option (Nat × Nat)
  localLock : Bool
deriving Repr, DecidableEq

/-- The lock status object resolved by `readLock`. -/
structure LockStatus where
  locked : Bool
  pid : Nat
deriving Repr, DecidableEq

/-- The function `readLock`, assuming a healthy file system (the `reject`
paths for read/write errors are not modelled): a set `localLock` short
circuits to a locked-by-self status; an absent file is created unlocked and
owned by this process; otherwise the file is parsed
(`locked = parseInt(flag) !== 0`), and a lock held by a different, dead pid
is reclaimed by rewriting the file to `0.<selfPid>`. -/
def readLock (env : LockEnv) (st : LockState) : LockStatus × LockState :=
  if st.localLock then
    (⟨true, env.selfPid⟩, st)
  else
    match st.file with
    | none =>
        (⟨false, env.selfPid⟩, { st with file := some (0, env.selfPid) })
    | some (flag, p) =>
        let status : LockStatus := ⟨flag != 0, p⟩
        if status.locked && status.pid != env.selfPid then
          if env.alive p then
            (status, st)
          else
            (⟨false, env.selfPid⟩, { st with file := some (0, env.selfPid) })
        else
          (status, st)

/-- The function `writeLock`: reads the lock; a lock held by a different
process is the device-locked failure (`error`, carrying the state left by
`readLock`); otherwise `localLock` is updated and the file is overwritten
with `<flag>.<selfPid>`. -/
def writeLock (env : LockEnv) (st : LockState) (locked : Bool) :
    Except LockState LockState :=
  let r := readLock env st
  if r.fst.locked && r.fst.pid != env.selfPid then
    .error r.snd
  else
    .ok { file := some ((if locked then 1 else 0), env.selfPid), localLock := locked }

/-- The function `lock` (acquire): `writeLock(true)`. -/
def lock (env : LockEnv) (st : LockState) : Except LockState LockState :=
  writeLock env st true

/-- The function `unlock` (release): `writeLock(false)`. -/
def unlock (env : LockEnv) (st : LockState) : Except LockState LockState :=
  writeLock env st false

/-! ## Session guard (src/lib/BaseDevice.js, ifBootedAndAvailableDoWithSessionOrReject) -/

/-- Outcome of the guard.  `noSettle` marks the path on which the source
invokes neither `resolve` nor `reject` nor the completion callback (the
promise never settles). -/
inductive GuardOutcome
  | rejectInvalidSession
  | noSettle
  | rejectReadLockErr
  | rejectDeviceLocked
  | rejectNotBooted
  | runAction
deriving Repr, DecidableEq

/-- Result of the guard: the outcome, the device session slot afterwards,
and the session store afterwards. -/
structure GuardResult where
  outcome : GuardOutcome
  devSession : Option DeviceSession
  store : SessionStore
deriving Repr, DecidableEq

/-- The guard `ifBootedAndAvailableDoWithSessionOrReject`.  `userSession` and
`devSession` are `none` when the respective value is not a `DeviceSession`
instance; `lockRes` is the result of `readLock` (`Except` for its error
path); `booted` the answer of `isBooted`.  The guard first rejects
non-instances, then runs `session.compareAndValidate(userSession)` — whose
short-circuit on an identity mismatch never invokes the callback
(`noSettle`) — then checks the lock and the booted state before admitting
the action. -/
def ifBootedAndAvailableDoWithSessionOrReject
    (userSession devSession : Option DeviceSession) (st : SessionStore)
    (now : Nat) (lockRes : Except Unit LockStatus) (selfPid : Nat)
    (booted : Bool) : GuardResult :=
  match userSession, devSession with
  | none, d => ⟨.rejectInvalidSession, d, st⟩
  | some _, none => ⟨.rejectInvalidSession, none, st⟩
  | some u, some s =>
    match DeviceSession.compareAndValidate s u st now with
    | none => ⟨.noSettle, some s, st⟩
    | some (isValid, s1, st1) =>
      if !isValid then
        ⟨.rejectInvalidSession, some s1, st1⟩
      else
        match lockRes with
        | .error _ => ⟨.rejectReadLockErr, some s1, st1⟩
        | .ok l =>
          if !l.locked || l.pid == selfPid then
            if booted then
              ⟨.runAction, some s1, st1⟩
            else
              ⟨.rejectNotBooted, some s1, st1⟩
          else
            ⟨.rejectDeviceLocked, some s1, st1⟩

/-! ## isAvailable (src/lib/BaseDevice.js) -/

/-- A JavaScript value, as far as the `isAvailable` logic observes one. -/
inductive JsVal
  | undefinedV
  | boolV (b : Bool)
deriving Repr, DecidableEq

/-- Property access `session.started` on a `DeviceSession` object: the
constructor defines no `started` property, so the access yields
`undefined`. -/
def sessionStartedProp (_ : DeviceSession) : JsVal :=
  .undefinedV

/-- Outcome of `isAvailable`: a resolved boolean, or a synchronous
`TypeError` thrown inside the promise executor (which rejects the promise
and skips the completion callback). -/
inductive IsAvailResult
  | resolvedB (b : Bool)
  | throwTypeError
deriving Repr, DecidableEq

/-- The method `isAvailable`: evaluates `session.started === true` on the
captured session slot — throwing a `TypeError` when the slot is `null` —
and otherwise resolves the negation of `isLocked`. -/
def isAvailable (session : Option DeviceSession) (locked : Bool) : IsAvailResult :=
  match session with
  | none => .throwTypeError
  | some s =>
      if sessionStartedProp s == .boolV true then
        .resolvedB false
      else if locked then
        .resolvedB false
      else
        .resolvedB true

/-! ## Driver registration (src/index.js, BaseDevice.deviceTypeIsValid) -/

/-- Typeof tags of the JavaScript values a driver module exposes as statics.
Present values are assumed truthy (real driver statics are functions and
non-empty strings). -/
inductive JsTy
  | functionTy
  | stringTy
  | numberTy
  | booleanTy
deriving Repr, DecidableEq

/-- The string `typeof` returns for each tag. -/
def typeofName : JsTy → String
  | .functionTy => "function"
  | .stringTy => "string"
  | .numberTy => "number"
  | .booleanTy => "boolean"

/-- A driver module as the capability check observes it: whether the export
is a `Function` at all, and its static members with their typeof tags. -/
structure DriverModule where
  isFunction : Bool
  statics : List (String × JsTy)
deriving Repr, DecidableEq

/-- Static member lookup; `none` is the `undefined` of an absent member. -/
def getStatic (d : DriverModule) (n : String) : Option JsTy :=
  (d.statics.find? (fun kv => kv.fst == n)).map (fun kv => kv.snd)

/-- `BaseDevice.REQUIRED_STATIC_METHODS`. -/
def REQUIRED_STATIC_METHODS : List String :=
  ["getAllDevices", "getAvailableDevices", "getDevicesWithName", "getDeviceWithId"]

/-- `BaseDevice.REQUIRED_STATIC_PROPERTIES` as name/type pairs. -/
def REQUIRED_STATIC_PROPERTIES : List (String × String) :=
  [("PLATFORM", "string")]

/-- The test `!deviceClass[m] || !(deviceClass[m] instanceof Function)` for
one required static method. -/
def staticMethodMissing (d : DriverModule) (m : String) : Bool :=
  match getStatic d m with
  | some .functionTy => false
  | _ => true

/-- The test `deviceClass[p.name] === undefined ||
p.type.split(pipe).indexOf(typeof deviceClass[p.name]) === -1` for one
required static property. -/
def staticPropMissing (d : DriverModule) (pname ptype : String) : Bool :=
  match getStatic d pname with
  | none => true
  | some t => !(ptype.splitOn "|").contains (typeofName t)

/-- The `missing` array accumulated by `deviceTypeIsValid`: method entries
first, then property entries. -/
def missingOf (d : DriverModule) : List String :=
  (REQUIRED_STATIC_METHODS.filter (fun m => staticMethodMissing d m)).map
      (fun m => "Method: " ++ m)
    ++ (REQUIRED_STATIC_PROPERTIES.filter
          (fun p => staticPropMissing d p.fst p.snd)).map
      (fun p => "Property: " ++ p.fst)

/-- The return value of `deviceTypeIsValid`: the literal `false` for a
non-Function export, otherwise the `missing` array itself. -/
inductive TypeValidationResult
  | notAFunction
  | missingList (missing : List String)
deriving Repr, DecidableEq

/-- The static `BaseDevice.deviceTypeIsValid`. -/
def deviceTypeIsValid (d : DriverModule) : TypeValidationResult :=
  if !d.isFunction then
    .notAFunction
  else
    .missingList (missingOf d)

/-- JavaScript truthiness of the value `deviceTypeIsValid` returns: `false`
is falsy; an array — empty or not — is truthy. -/
def jsTruthyValidation : TypeValidationResult → Bool
  | .notAFunction => false
  | .missingList _ => true

/-- The registration test of the driver loading loop in `src/index.js`:
`if (Base.deviceTypeIsValid(d)) drivers[driverPath] = d; else throw ...`.
`true` means the driver is added to the driver map, `false` means the load
throws and the driver is not registered. -/
def driverRegistered (d : DriverModule) : Bool :=
  jsTruthyValidation (deviceTypeIsValid d)

/-! ## Single-flight discovery dispatch (src/lib/iOS/index.js,
src/lib/Android/index.js) -/

/-- Per-kind discovery coordinator state: the in-flight flag
(`WALKING_SIMS` / `ADB_RUNNING_WALKING`), the timestamp of the last walk
(`LAST_SIM_WALK` / `ADB_RUNNING_LAST`), and the number of queued waiters
(`SIM_DEVICE_QUEUE` / `ADB_RUNNING_QUEUE`). -/
structure WalkState where
  walking : Bool
  lastWalk : Nat
  waiters : Nat
deriving Repr, DecidableEq

/-- What a discovery request does on arrival: start a fresh subprocess walk
(clearing the cache and enqueuing the caller), return the cached result
immediately, or enqueue the caller behind the in-flight walk. -/
inductive DiscoveryAction
  | startWalk
  | returnCache
  | enqueue
deriving Repr, DecidableEq

/-- `REFRESH_TIMEOUT` of the iOS driver (ms). -/
def REFRESH_TIMEOUT : Nat := 1000

/-- `ADB_RUNNING_TIMEOUT` of the Android driver (ms). -/
def ADB_RUNNING_TIMEOUT : Nat := 3000

/-- The dispatch of `iOSDevice.getSimulatorDeviceStatuses`:
`if (!WALKING_SIMS || Date.now() - LAST_SIM_WALK > REFRESH_TIMEOUT)` start a
walk; `else if (!WALKING_SIMS)` return the cache; `else` enqueue. -/
def getSimulatorDeviceStatuses (st : WalkState) (now : Nat) :
    DiscoveryAction × WalkState :=
  if !st.walking || decide ((now : Int) - (st.lastWalk : Int) > (REFRESH_TIMEOUT : Int)) then
    (.startWalk, ⟨true, now, st.waiters + 1⟩)
  else if !st.walking then
    (.returnCache, st)
  else
    (.enqueue, { st with waiters := st.waiters + 1 })

/-- The dispatch of `AndroidDevice.listRunningDevices` (after the one-time
`adb kill-server` preamble): same branch structure with
`ADB_RUNNING_WALKING`, `ADB_RUNNING_LAST` and `ADB_RUNNING_TIMEOUT`. -/
def listRunningDevices (st : WalkState) (now : Nat) :
    DiscoveryAction × WalkState :=
  if !st.walking || decide ((now : Int) - (st.lastWalk : Int) > (ADB_RUNNING_TIMEOUT : Int)) then
    (.startWalk, ⟨true, now, st.waiters + 1⟩)
  else if !st.walking then
    (.returnCache, st)
  else
    (.enqueue, { st with waiters := st.waiters + 1 })

/-! ## Boot dispatch (src/lib/Android/Emulator.js, iOSSimulatorDevice.boot) -/

/-- First externally visible step of `AndroidEmulatorDevice.boot`. -/
inductive AndroidBootAction
  | spawnEmulator
  | rejectLocked
  | rejectNotReady
  | rejectAlreadyBooted
deriving Repr, DecidableEq

/-- The dispatch of `AndroidEmulatorDevice.boot`: a locked device rejects;
then `isBooted` is consulted — on an error or a non-booted device the boot
path runs (it sets `isBooting[id]`, finds a port and spawns the emulator);
only a booted device with `isBooting[id]` still set yields
`DEVICE_NOT_READY_ERROR`, otherwise `DEVICE_ALREADY_BOOTED_ERROR`. -/
def androidBootDispatch (locked isBootedErr booted isBootingFlag : Bool) :
    AndroidBootAction :=
  if locked then
    .rejectLocked
  else if isBootedErr || !booted then
    .spawnEmulator
  else if isBootingFlag then
    .rejectNotReady
  else
    .rejectAlreadyBooted

/-- First externally visible step of `iOSSimulatorDevice.boot`. -/
inductive IOSBootAction
  | spawnSimulator
  | resolveExisting
  | rejectMappingErr
  | rejectNotReady
  | rejectAlreadyBooted
deriving Repr, DecidableEq

/-- The dispatch of `iOSSimulatorDevice.boot`: when the device is not booted
and `isBooting[udid]` is clear, the Simulator process is spawned; otherwise
`mapUDIDSToRunningSimulators` runs — its error rejects, a mapping hit
resolves as a success (refocusing the existing process), a miss yields
`DEVICE_NOT_READY_ERROR` when `isBooting[udid]` is set and
`DEVICE_ALREADY_BOOTED_ERROR` otherwise. -/
def iosBootDispatch (booted isBootingFlag mapErr mappingHasUdid : Bool) :
    IOSBootAction :=
  if !booted && !isBootingFlag then
    .spawnSimulator
  else if mapErr then
    .rejectMappingErr
  else if mappingHasUdid then
    .resolveExisting
  else if isBootingFlag then
    .rejectNotReady
  else
    .rejectAlreadyBooted

/-! ## Rotation (src/lib/Android/index.js, iOSSimulatorDevice) -/

/-- What a completed `exec` handed to its callback: truthiness of the error
argument, and the stdout / stderr strings.  Shared by the rotation paths
and the adb install / uninstall handlers. -/
structure ExecResult where
  err : Bool
  stdout : String
  stderr : String
deriving Repr, DecidableEq

/-- `AndroidDevice.rotateLeft` on the closure variable `orientation`
(`ok` = the adb command produced neither an error nor stderr): saves the old
value, decrements with wrap at the low end, and restores the old value on
failure. -/
def androidRotateLeft (o : Int) (ok : Bool) : Int :=
  let o1 := o - 1
  let o2 := if o1 < 0 then 3 else o1
  if ok then o2 else o

/-- `AndroidDevice.rotateRight`: increments with wrap at the high end and
restores the old value on failure. -/
def androidRotateRight (o : Int) (ok : Bool) : Int :=
  let o1 := o + 1
  let o2 := if o1 > 3 then 0 else o1
  if ok then o2 else o

/-- The `err` argument `executeJXACommand` hands to its callback.  On a
failed exec (`err || stderr`) it runs `done.call(err || new Error(stderr))`
— `Function.prototype.call` binds its first argument as `this` and passes
no arguments, so the callback sees `undefined` (`none` here).  On a
successful exec it runs `done.call(iOSDevice, stdout)`, so the callback
sees the stdout string. -/
def jxaCallbackErrArg (r : ExecResult) : Option String :=
  if r.err || r.stderr != "" then none else some r.stdout

/-- Truthiness of the callback argument: `undefined` is falsy; a string is
truthy exactly when non-empty. -/
def jxaErrTruthy : Option String → Bool
  | none => false
  | some s => s != ""

/-- How a rotation call settles. -/
inductive RotateOutcome
  | resolvedOk
  | rejected
deriving Repr, DecidableEq

/-- `iOSSimulatorDevice.rotateLeft` past the guard, over the closure
variable `orientation`: the callback handed to `executeJXACommand` runs
`if (!err) orientation--`, then the unconditional underflow wrap
`if (orientation < 0) orientation = 3`, and settles with
`err ? reject(err) : resolve(null)` — where `err` is the argument built by
`jxaCallbackErrArg`, not the exec error. -/
def iosRotateLeft (o : Int) (r : ExecResult) : Int × RotateOutcome :=
  let e := jxaErrTruthy (jxaCallbackErrArg r)
  let o1 := if !e then o - 1 else o
  let o2 := if o1 < 0 then 3 else o1
  (o2, if e then .rejected else .resolvedOk)

/-- `iOSSimulatorDevice.rotateRight` past the guard: `if (!err) orientation++`
with the unconditional overflow wrap `if (orientation > 3) orientation = 0`,
settling on the same `jxaCallbackErrArg` argument. -/
def iosRotateRight (o : Int) (r : ExecResult) : Int × RotateOutcome :=
  let e := jxaErrTruthy (jxaCallbackErrArg r)
  let o1 := if !e then o + 1 else o
  let o2 := if o1 > 3 then 0 else o1
  (o2, if e then .rejected else .resolvedOk)

/-! ## Android adb install / uninstall result handling
(src/lib/Android/index.js) -/

/-- Outcome of `AndroidDevice.install` / `uninstall` once past the session
guard.  A rejection is either the exec error object itself or
`new Error(stderr)`; `rejectedArgType` is the non-string-argument
rejection. -/
inductive AdbOutcome
  | resolved (out : String)
  | rejectedExecErr
  | rejectedStderrMsg (msg : String)
  | rejectedArgType
deriving Repr, DecidableEq

/-- The body of `AndroidDevice.install` inside the guard: a non-string apk
argument rejects; otherwise `if (err || stdout)` rejects with
`err || new Error(stderr)`, else resolves with stdout. -/
def androidInstall (apkIsString : Bool) (r : ExecResult) : AdbOutcome :=
  if apkIsString then
    if r.err || r.stdout != "" then
      if r.err then .rejectedExecErr else .rejectedStderrMsg r.stderr
    else
      .resolved r.stdout
  else
    .rejectedArgType

/-- The body of `AndroidDevice.uninstall` inside the guard: identical result
handling to `install` over the adb uninstall command. -/
def androidUninstall (apkIsString : Bool) (r : ExecResult) : AdbOutcome :=
  if apkIsString then
    if r.err || r.stdout != "" then
      if r.err then .rejectedExecErr else .rejectedStderrMsg r.stderr
    else
      .resolved r.stdout
  else
    .rejectedArgType

/-! ## Concrete objects used by the closed theorems -/

/-- The current session of the device in the C1 scenario (live, fresh). -/
def c1DevSession : DeviceSession := ⟨1, some 11, 0, 300000⟩

/-- A second, distinct live session presented by the caller in the C1
scenario. -/
def c1UserSession : DeviceSession := ⟨2, some 22, 0, 300000⟩

/-- A store in which both C1 sessions are registered. -/
def c1Store : SessionStore := [(some 11, true), (some 22, true)]

/-- A session with token 7, registered in `c7Store`. -/
def c7Session : DeviceSession := ⟨1, some 7, 0, 300000⟩

/-- The store holding exactly `c7Session` under its token. -/
def c7Store : SessionStore := c7Session.register []

/-- A function export with none of the required statics. -/
def emptyDriver : DriverModule := ⟨true, []⟩

/-- A live session used by the C9 evaluation. -/
def c9Session : DeviceSession := ⟨3, some 33, 0, 300000⟩

/-- An expired session used by the C2 witness (default timeout, stale). -/
def c2Session : DeviceSession := ⟨4, some 44, 0, 300000⟩

/-- The store holding exactly `c2Session` under its token. -/
def c2Store : SessionStore := c2Session.register []

/-- The lock environment of the C3 witness: own pid 10, and pid 99 is the
only live foreign process. -/
def c3Env : LockEnv := ⟨10, fun q => q == 99⟩

/-! ## Theorems -/

/-- C2: for every session, `validate` is truthy exactly when the session is
registered in the store under its token and `now - lastUsedAt < ttl`; a
truthy result refreshes `lastUsedAt` and leaves the store alone, a falsy
result destroys the session; in particular every session at or past its ttl
validates false and is destroyed. -/
theorem C2_validate_spec (st : SessionStore) (s : DeviceSession) (now : Nat) :
    (((s.validate st now).fst = true) ↔
      (tokenRegistered st s = true ∧ (now : Int) - (s.lastUsed : Int) < (s.timeout : Int)))
  ∧ ((s.validate st now).fst = true →
      (s.validate st now).snd.fst.lastUsed = now ∧ (s.validate st now).snd.snd = st)
  ∧ ((s.validate st now).fst = false → (s.validate st now).snd.fst.token = none)
  ∧ ((s.timeout : Int) ≤ (now : Int) - (s.lastUsed : Int) →
      (s.validate st now).fst = false ∧ (s.validate st now).snd.fst.token = none) := by
  simp only [DeviceSession.validate, DeviceSession.destroy, tokenRegistered]
  split_ifs with h
  · simp only [Bool.and_eq_true, decide_eq_true_eq] at h
    obtain ⟨⟨h1, h2⟩, h3⟩ := h
    refine ⟨by simp [h1, h2, h3], fun _ => ⟨rfl, rfl⟩, by simp, fun hto => ?_⟩
    omega
  · simp only [Bool.and_eq_true, decide_eq_true_eq, not_and] at h
    refine ⟨?_, by simp, fun _ => rfl, fun _ => ⟨rfl, rfl⟩⟩
    constructor
    · intro hfalse; cases hfalse
    · rintro ⟨hreg, hfresh⟩
      simp only [Bool.and_eq_true] at hreg
      exact absurd (h ⟨hfresh, hreg.1⟩ hreg.2) (by simp)

/-- C2 witness: a session whose age reaches its ttl validates false and ends
up destroyed (token nulled). -/
theorem C2_witness :
    (c2Session.validate c2Store 400000).fst = false
  ∧ (c2Session.validate c2Store 400000).snd.fst.token = none :=
  (C2_validate_spec c2Store c2Session 400000).2.2.2 (by decide)

/-- C3: acquiring the lock (`lock = writeLock(true)`) succeeds and leaves
the file as `1.<selfPid>` whenever the recorded holder is dead; when the
file already records this process as the locked holder the acquire succeeds
with the file content unchanged; and when a different live process holds
the lock the acquire fails with the device-locked error, leaving the state
untouched. -/
theorem C3_acquire_protocol (env : LockEnv) (st : LockState) (flag p : Nat) :
    (st.file = some (flag, p) → env.alive p = false →
        lock env st = .ok ⟨some (1, env.selfPid), true⟩)
  ∧ (st.file = some (1, env.selfPid) →
        lock env st = .ok ⟨some (1, env.selfPid), true⟩)
  ∧ (st.localLock = false → st.file = some (flag, p) → flag ≠ 0 →
        p ≠ env.selfPid → env.alive p = true →
        lock env st = .error st) := by
  obtain ⟨file, localLock⟩ := st
  refine ⟨?_, ?_, ?_⟩
  · rintro rfl hdead
    cases localLock <;>
      simp only [lock, writeLock, readLock, hdead] <;>
      split_ifs <;> simp_all
  · rintro rfl
    cases localLock <;>
      simp only [lock, writeLock, readLock] <;>
      split_ifs <;> simp_all
  · rintro rfl rfl hflag hp halive
    simp only [lock, writeLock, readLock, halive, hflag, hp]
    split_ifs <;> simp_all

/-- C3 witness: with own pid 10 and only pid 99 alive — a file locked by
dead pid 42 is reclaimed and acquired, a file locked by this process is a
no-op success, and a file locked by live pid 99 fails as device-locked. -/
theorem C3_witness :
    lock c3Env ⟨some (1, 42), false⟩ = .ok ⟨some (1, 10), true⟩
  ∧ lock c3Env ⟨some (1, 10), false⟩ = .ok ⟨some (1, 10), true⟩
  ∧ lock c3Env ⟨some (1, 99), false⟩ = .error ⟨some (1, 99), false⟩ :=
  ⟨(C3_acquire_protocol c3Env ⟨some (1, 42), false⟩ 1 42).1 rfl (by decide),
   (C3_acquire_protocol c3Env ⟨some (1, 10), false⟩ 1 10).2.1 (by decide),
   (C3_acquire_protocol c3Env ⟨some (1, 99), false⟩ 1 99).2.2 rfl rfl
     (by decide) (by decide) (by decide)⟩

/-- C8 (code bug): because `executeJXACommand` reports a failure through
`done.call(err || new Error(stderr))` — binding the error as `this` and
passing no arguments — the iOS rotation callback sees `err = undefined` on
a failed backend call, so it mutates the orientation and resolves success
instead of reverting; a successful exec with non-empty stdout is instead
taken for an error and rejected with the orientation unchanged.  The
success round trip and the 0-to-3 / 3-to-0 wraps do hold, and the Android
driver reverts on failure and wraps exactly as the claim states. -/
theorem C8_ios_rotation_mutates_on_backend_failure :
    iosRotateLeft 2 ⟨false, "", "osascript failure"⟩ = (1, .resolvedOk)
  ∧ iosRotateRight 2 ⟨true, "", ""⟩ = (3, .resolvedOk)
  ∧ iosRotateLeft 2 ⟨false, "unexpected output", ""⟩ = (2, .rejected)
  ∧ (iosRotateLeft 0 ⟨false, "", ""⟩).fst = 3
  ∧ (iosRotateRight 3 ⟨false, "", ""⟩).fst = 0
  ∧ iosRotateRight (iosRotateLeft 2 ⟨false, "", ""⟩).fst ⟨false, "", ""⟩
      = (2, .resolvedOk)
  ∧ androidRotateLeft 2 false = 2
  ∧ androidRotateRight 2 false = 2
  ∧ androidRotateRight (androidRotateLeft 2 true) true = 2
  ∧ androidRotateLeft 0 true = 3
  ∧ androidRotateRight 3 true = 0 := by
  decide

/-- C10: past the guard with a string argument, the Android `install` and
`uninstall` resolve exactly when the exec reported no error and stdout is
empty; any non-empty stdout without an exec error — even with exit code 0
and empty stderr — rejects, and that rejection message is built from
stderr. -/
theorem C10_adb_stdout_rejection (r : ExecResult) :
    (androidInstall true r = .resolved r.stdout ↔ (r.err = false ∧ r.stdout = ""))
  ∧ (r.err = false → r.stdout ≠ "" →
      androidInstall true r = .rejectedStderrMsg r.stderr)
  ∧ (androidUninstall true r = .resolved r.stdout ↔ (r.err = false ∧ r.stdout = ""))
  ∧ (r.err = false → r.stdout ≠ "" →
      androidUninstall true r = .rejectedStderrMsg r.stderr) := by
  obtain ⟨e, so, se⟩ := r
  cases e <;> by_cases h : so = "" <;>
    simp_all [androidInstall, androidUninstall]

/-- C10 witness: an adb run with exit success, stdout `Success` and empty
stderr is rejected, with the message built from the (empty) stderr. -/
theorem C10_witness :
    (false = false ∧ "Success" ≠ "")
  ∧ androidInstall true ⟨false, "Success", ""⟩ = .rejectedStderrMsg "" :=
  ⟨⟨rfl, by decide⟩,
   (C10_adb_stdout_rejection ⟨false, "Success", ""⟩).2.1 rfl (by decide)⟩

/-- C1 (code bug): a caller presenting a live `DeviceSession` that is not
the device current session object makes `compareAndValidate` short-circuit
without ever invoking the completion callback, so the guarded operation
never settles — it does not reject with `InvalidSession` as the claim (and
the guard documentation) promise.  No backend runs and the device session
slot and store are unchanged; a non-`DeviceSession` argument does reject
with `InvalidSession`. -/
theorem C1_mismatched_session_never_settles :
    (ifBootedAndAvailableDoWithSessionOrReject (some c1UserSession)
        (some c1DevSession) c1Store 0 (.ok ⟨true, 5⟩) 5 true).outcome
      = .noSettle
  ∧ (ifBootedAndAvailableDoWithSessionOrReject (some c1UserSession)
        (some c1DevSession) c1Store 0 (.ok ⟨true, 5⟩) 5 true).devSession
      = some c1DevSession
  ∧ (ifBootedAndAvailableDoWithSessionOrReject (some c1UserSession)
        (some c1DevSession) c1Store 0 (.ok ⟨true, 5⟩) 5 true).store = c1Store
  ∧ (ifBootedAndAvailableDoWithSessionOrReject none (some c1DevSession)
        c1Store 0 (.ok ⟨true, 5⟩) 5 true).outcome = .rejectInvalidSession := by
  decide

/-- C4 (code bug): the dispatch condition of both discovery coordinators is
`!inFlight OR stale`, so a fresh cache with no walk in flight still starts
a new subprocess walk, a stale in-flight walk starts a second concurrent
walk, and the return-cached-result branch is dead code: every request
either starts a walk or enqueues. -/
theorem C4_fresh_cache_branch_dead :
    ((getSimulatorDeviceStatuses ⟨false, 100, 0⟩ 100).fst = .startWalk
  ∧ (listRunningDevices ⟨false, 100, 0⟩ 100).fst = .startWalk)
  ∧ ((getSimulatorDeviceStatuses ⟨true, 0, 1⟩ 5000).fst = .startWalk
  ∧ (listRunningDevices ⟨true, 0, 1⟩ 5000).fst = .startWalk)
  ∧ (∀ st now, (getSimulatorDeviceStatuses st now).fst = .startWalk
      ∨ (getSimulatorDeviceStatuses st now).fst = .enqueue)
  ∧ (∀ st now, (listRunningDevices st now).fst = .startWalk
      ∨ (listRunningDevices st now).fst = .enqueue) := by
  refine ⟨⟨by decide, by decide⟩, ⟨by decide, by decide⟩, ?_, ?_⟩ <;>
    intro st now <;>
    obtain ⟨w, l, q⟩ := st <;>
    cases w <;>
    simp [getSimulatorDeviceStatuses, listRunningDevices] <;>
    split_ifs <;> simp_all

/-- C5 (code bug): with a boot in progress (`isBooting` set, device not yet
booted), a second Android `boot` call goes down the spawn path and starts a
second emulator subprocess instead of failing with `DeviceNotReady`; the
Android not-ready rejection is reachable only after the device already
reports booted.  A second iOS `boot` call does not spawn, but resolves as a
success via the running-simulator mapping rather than failing with
`DeviceNotReady`; it rejects not-ready only when the mapping misses. -/
theorem C5_double_boot_guard_ineffective :
    androidBootDispatch false false false true = .spawnEmulator
  ∧ androidBootDispatch false false true true = .rejectNotReady
  ∧ iosBootDispatch false true false true = .resolveExisting
  ∧ iosBootDispatch false true false false = .rejectNotReady := by
  decide

/-- C6 (code bug): a Function driver export missing every required static
method and the `PLATFORM` property yields a non-empty `missing` array from
`deviceTypeIsValid` — a truthy JavaScript value — so the loading loop
registers the driver instead of throwing; only a non-Function export (the
literal `false` return) is rejected. -/
theorem C6_invalid_driver_registered :
    deviceTypeIsValid emptyDriver =
      .missingList ["Method: getAllDevices", "Method: getAvailableDevices",
        "Method: getDevicesWithName", "Method: getDeviceWithId",
        "Property: PLATFORM"]
  ∧ driverRegistered emptyDriver = true
  ∧ driverRegistered ⟨false, []⟩ = false := by
  decide

/-- C7 (code bug): `destroy` nulls the token before using it as the map
key, so it deletes the `null` key and the registry entry under the original
token survives: after destroying a session registered under token 7,
`getSessionByToken(7)` still returns the session (truthy, not null) and
the store is unchanged; the session object itself does get its token
nulled, so a later `validate` on it is false. -/
theorem C7_destroy_leaves_registry_entry :
    getSessionByToken (c7Session.destroy c7Store).snd (some 7) = true
  ∧ (c7Session.destroy c7Store).snd = c7Store
  ∧ (c7Session.destroy c7Store).fst.token = none
  ∧ ((c7Session.destroy c7Store).fst.validate
        (c7Session.destroy c7Store).snd 0).fst = false := by
  decide

/-- C9 (code bug): `isAvailable` dereferences `session.started` on the
captured slot, so on a device with no session (`session = null`) it throws
a `TypeError` instead of resolving the negation of `isLocked`; and since a
`DeviceSession` has no `started` property, a device with an active session
but an unlocked file resolves true, not false. -/
theorem C9_isAvailable_throws_on_null_session :
    isAvailable none false = .throwTypeError
  ∧ isAvailable none true = .throwTypeError
  ∧ isAvailable (some c9Session) false = .resolvedB true := by
  decide

end SimCtl
